import Mathlib

/-!
Verification of src/chainparamsbase.cpp: the chain-parameter factory,
the process-wide selection slot, and the option registrar.
Shallow embedding: the file-static slot and the configuration
collaborator's selected network become an explicit state record;
the registrar becomes the list of descriptors it registers.
-/

/-- The immutable parameter object: data-directory suffix and default
P2P port (a 16-bit value in the source, modelled as Nat). -/
structure CBaseChainParams where
  strDataDir : String
  nDefaultPort : Nat
deriving DecidableEq, Repr

def CBaseChainParams.MAIN : String := "main"

def CBaseChainParams.TESTNET : String := "test"

def CBaseChainParams.SIGNET : String := "signet"

def CBaseChainParams.REGTEST : String := "regtest"

/-- CreateBaseChainParams, translated clause for clause from the source:
four exact-match cases in source order, then the custom-chain fallback.
The source returns a never-null unique_ptr, so the result is a plain value. -/
def CreateBaseChainParams (chain : String) : CBaseChainParams :=
  if chain = CBaseChainParams.MAIN then ⟨"", 8332⟩
  else if chain = CBaseChainParams.TESTNET then ⟨"testnet3", 18332⟩
  else if chain = CBaseChainParams.REGTEST then ⟨"regtest", 18443⟩
  else if chain = CBaseChainParams.SIGNET then ⟨"signet", 38332⟩
  else ⟨chain, 18553⟩

/-- The module's process-wide state: the file-static slot
globalChainBaseParams, plus the external collaborator's selected
network section (written by gArgs.SelectConfigNetwork). -/
structure ModuleState where
  globalChainBaseParams : Option CBaseChainParams
  configNetwork : Option String
deriving DecidableEq, Repr

/-- Process start: the slot is empty and no network is selected. -/
def initState : ModuleState := ⟨none, none⟩

/-- BaseParams: asserts the slot is populated and returns its contents.
A result of none models the assertion firing (process abort);
some p models a normal return of the stored value. -/
def BaseParams (st : ModuleState) : Option CBaseChainParams :=
  match st.globalChainBaseParams with
  | some p => some p
  | none => none

/-- First statement of SelectBaseParams: assign the freshly created
parameters to the file-static slot. -/
def assignGlobalChainBaseParams (chain : String) (st : ModuleState) : ModuleState :=
  { st with globalChainBaseParams := some (CreateBaseChainParams chain) }

/-- Modelled from the spec: gArgs.SelectConfigNetwork lives in the
external configuration collaborator (not under src/); per the spec it
scopes config-file section lookups to the identifier. The slot is a
file-static of this translation unit, so the collaborator cannot
touch it. -/
def SelectConfigNetwork (chain : String) (st : ModuleState) : ModuleState :=
  { st with configNetwork := some chain }

/-- SelectBaseParams: the two source statements in order — assign the
slot, then notify the collaborator. -/
def SelectBaseParams (chain : String) (st : ModuleState) : ModuleState :=
  SelectConfigNetwork chain (assignGlobalChainBaseParams chain st)

/-- Stateful view of CreateBaseChainParams as a C++ function running
against the module state: its body mentions neither the slot nor the
collaborator, so it returns the pure result and the state unchanged. -/
def CreateBaseChainParamsSt (chain : String) (st : ModuleState) :
    CBaseChainParams × ModuleState :=
  (CreateBaseChainParams chain, st)

/-- Flag bits passed to AddArg in the source. -/
inductive ArgFlag where
  | ALLOW_ANY
  | ALLOW_STRING
  | DEBUG_ONLY
deriving DecidableEq, BEq, Repr

/-- Option categories used by this module. -/
inductive OptionsCategory where
  | CHAINPARAMS
  | DEBUG_TEST
deriving DecidableEq, BEq, Repr

/-- One AddArg registration: name, help text, flag set, category. -/
structure ArgDescriptor where
  name : String
  help : String
  flags : List ArgFlag
  category : OptionsCategory
deriving DecidableEq, BEq, Repr

/-- SetupChainParamsBaseOptions: the nine AddArg registrations, in
source order, with the source's exact help strings and flags. -/
def SetupChainParamsBaseOptions : List ArgDescriptor :=
  [ ⟨"-chain=<chain>", "Use the chain <chain> (default: main). Reserved values: main, test, regtest. With any other value, a custom chain is used. All regtest-only options are available in custom chains too.", [.ALLOW_ANY], .CHAINPARAMS⟩,
    ⟨"-regtest", "Enter regression test mode, which uses a special chain in which blocks can be solved instantly. This is intended for regression testing tools and app development. Equivalent to -chain=regtest.", [.ALLOW_ANY, .DEBUG_ONLY], .CHAINPARAMS⟩,
    ⟨"-segwitheight=<n>", "Set the activation height of segwit. -1 to disable. (regtest-only)", [.ALLOW_ANY, .DEBUG_ONLY], .DEBUG_TEST⟩,
    ⟨"-testnet", "Use the test chain. Equivalent to -chain=test.", [.ALLOW_ANY], .CHAINPARAMS⟩,
    ⟨"-vbparams=deployment:start:end", "Use given start/end times for specified version bits deployment (regtest-only)", [.ALLOW_ANY, .DEBUG_ONLY], .CHAINPARAMS⟩,
    ⟨"-signet", "Use the signet chain. Note that the network is defined by the signet_blockscript parameter", [.ALLOW_ANY], .CHAINPARAMS⟩,
    ⟨"-signet_blockscript", "Blocks must satisfy the given script to be considered valid (only for signet networks)", [.ALLOW_STRING], .CHAINPARAMS⟩,
    ⟨"-signet_enforcescript", "Blocks must satisfy the given script to be considered valid (this replaces -signet_blockscript, and is used for opt-in-reorg mode)", [.ALLOW_STRING], .CHAINPARAMS⟩,
    ⟨"-is_test_chain", "Whether it\x27s allowed to set -acceptnonstdtxn=0 for this chain or not. Default: 1 (regtest-only)", [.ALLOW_ANY, .DEBUG_ONLY], .CHAINPARAMS⟩ ]

/-- Look up a registered option by its name string. -/
def findArg (n : String) : Option ArgDescriptor :=
  SetupChainParamsBaseOptions.find? (fun d => d.name == n)

/-- True when an option of that name was registered. -/
def argRegistered (n : String) : Bool :=
  (findArg n).isSome

/-- True when the named option was registered with DEBUG_ONLY set. -/
def argHasDebugOnly (n : String) : Bool :=
  match findArg n with
  | some d => d.flags.contains ArgFlag.DEBUG_ONLY
  | none => false

/-- True when the named option was registered with ALLOW_STRING. -/
def argAllowString (n : String) : Bool :=
  match findArg n with
  | some d => d.flags.contains ArgFlag.ALLOW_STRING
  | none => false

/-- The help text registered for the -chain option. -/
def chainOptionHelp : String :=
  match findArg "-chain=<chain>" with
  | some d => d.help
  | none => ""

/-- Does pat occur at the head of s? -/
def listStarts : List Char → List Char → Bool
  | [], _ => true
  | _ :: _, [] => false
  | p :: ps, c :: cs => (p == c) && listStarts ps cs

/-- Does pat occur anywhere inside s? -/
def listHasSub (pat : List Char) : List Char → Bool
  | [] => listStarts pat []
  | c :: cs => listStarts pat (c :: cs) || listHasSub pat cs

/-- Substring test on strings, via their character lists. -/
def containsSub (s pat : String) : Bool :=
  listHasSub pat.data s.data

/-- Recover the identifier from a factory result: reserved ports map
back to their reserved names, anything else carries the identifier in
its suffix. Used to prove the factory injective. -/
def recoverId (p : CBaseChainParams) : String :=
  if p.nDefaultPort = 8332 then "main"
  else if p.nDefaultPort = 18332 then "test"
  else if p.nDefaultPort = 18443 then "regtest"
  else if p.nDefaultPort = 38332 then "signet"
  else p.strDataDir

lemma recoverId_create (a : String) : recoverId (CreateBaseChainParams a) = a := by
  by_cases h1 : a = CBaseChainParams.MAIN
  · subst h1; decide
  by_cases h2 : a = CBaseChainParams.TESTNET
  · subst h2; decide
  by_cases h3 : a = CBaseChainParams.REGTEST
  · subst h3; decide
  by_cases h4 : a = CBaseChainParams.SIGNET
  · subst h4; decide
  simp [CreateBaseChainParams, recoverId, h1, h2, h3, h4]

/-- C1: each of the four reserved identifiers maps to exactly the
tabulated (suffix, port) pair: main to ("", 8332), test to
("testnet3", 18332), regtest to ("regtest", 18443), signet to
("signet", 38332). -/
theorem createBaseChainParams_reserved_table :
    CreateBaseChainParams "main" = ⟨"", 8332⟩ ∧
    CreateBaseChainParams "test" = ⟨"testnet3", 18332⟩ ∧
    CreateBaseChainParams "regtest" = ⟨"regtest", 18443⟩ ∧
    CreateBaseChainParams "signet" = ⟨"signet", 38332⟩ := by
  decide

/-- C2: every string other than the four reserved identifiers, the
empty string included, yields the custom-chain pair (s, 18553); the
factory is total and never signals an error. -/
theorem createBaseChainParams_custom :
    (∀ s : String, s ≠ "main" → s ≠ "test" → s ≠ "regtest" → s ≠ "signet" →
      CreateBaseChainParams s = ⟨s, 18553⟩) ∧
    CreateBaseChainParams "" = ⟨"", 18553⟩ := by
  constructor
  · intro s h1 h2 h3 h4
    simp [CreateBaseChainParams, CBaseChainParams.MAIN, CBaseChainParams.TESTNET,
      CBaseChainParams.REGTEST, CBaseChainParams.SIGNET, h1, h2, h3, h4]
  · decide

theorem createBaseChainParams_custom_witness :
    CreateBaseChainParams "mychain" = ⟨"mychain", 18553⟩ :=
  createBaseChainParams_custom.1 "mychain" (by decide) (by decide) (by decide) (by decide)

/-- C3: from any starting state, after SelectBaseParams x the accessor
BaseParams returns exactly the factory result for x. -/
theorem baseParams_after_select (chain : String) (st : ModuleState) :
    BaseParams (SelectBaseParams chain st) = some (CreateBaseChainParams chain) := by
  rfl

/-- C4: with the slot still empty (no selection ever), BaseParams hits
the assertion (modelled as none, a process abort, not a recoverable
value); whenever the slot is populated the assertion branch is not
taken and the stored value is returned normally. -/
theorem baseParams_unselected_aborts :
    BaseParams initState = none ∧
    ∀ st p, st.globalChainBaseParams = some p → BaseParams st = some p := by
  constructor
  · rfl
  · intro st p h
    simp [BaseParams, h]

theorem baseParams_unselected_aborts_witness :
    BaseParams initState = none ∧
    BaseParams (SelectBaseParams "main" initState) = some (CreateBaseChainParams "main") :=
  ⟨baseParams_unselected_aborts.1,
   baseParams_unselected_aborts.2 (SelectBaseParams "main" initState)
     (CreateBaseChainParams "main") rfl⟩

/-- C5: the registered -chain option reserves four names in the
factory, but its help text lists only three — the reserved-values
sentence omits signet while naming main, test and regtest; the claim
that all four reserved names are documented fails on this help
string, though signet is in fact a reserved identifier of the
factory. -/
theorem chainOption_help_omits_signet :
    containsSub chainOptionHelp "signet" = false ∧
    containsSub chainOptionHelp "Reserved values: main, test, regtest." = true ∧
    containsSub chainOptionHelp "(default: main)" = true ∧
    containsSub chainOptionHelp "With any other value, a custom chain is used. All regtest-only options are available in custom chains too." = true ∧
    CreateBaseChainParams "signet" = ⟨"signet", 38332⟩ := by
  decide

/-- C6: selecting a and then b leaves b's parameters observable: the
second selection silently overwrites the first, and both calls are
total (no error). -/
theorem select_last_write_wins (a b : String) (st : ModuleState) :
    BaseParams (SelectBaseParams b (SelectBaseParams a st)) =
      some (CreateBaseChainParams b) := by
  rfl

/-- C7: CreateBaseChainParams is pure and deterministic: run against
any two module states it returns the same value, and it returns the
state it was given unchanged — it neither reads nor writes the slot
or the collaborator. -/
theorem createBaseChainParams_pure (chain : String) (st st2 : ModuleState) :
    (CreateBaseChainParamsSt chain st).1 = (CreateBaseChainParamsSt chain st2).1 ∧
    (CreateBaseChainParamsSt chain st).2 = st := by
  exact ⟨rfl, rfl⟩

/-- C8: the regtest shortcut, segwit-height override, vbparams
override and is_test_chain flag are registered with DEBUG_ONLY set;
the testnet shortcut, signet shortcut and the two signet script
options are registered without it; the two signet script options are
string-valued. -/
theorem setupChainParamsBaseOptions_flags :
    argHasDebugOnly "-regtest" = true ∧
    argHasDebugOnly "-segwitheight=<n>" = true ∧
    argHasDebugOnly "-vbparams=deployment:start:end" = true ∧
    argHasDebugOnly "-is_test_chain" = true ∧
    argRegistered "-testnet" = true ∧
    argHasDebugOnly "-testnet" = false ∧
    argRegistered "-signet" = true ∧
    argHasDebugOnly "-signet" = false ∧
    argHasDebugOnly "-signet_blockscript" = false ∧
    argHasDebugOnly "-signet_enforcescript" = false ∧
    argAllowString "-signet_blockscript" = true ∧
    argAllowString "-signet_enforcescript" = true := by
  decide

/-- C9: inside SelectBaseParams the slot is assigned strictly before
the collaborator is notified: the call is exactly notify-after-assign,
the intermediate state already shows the new parameters through
BaseParams, and the notification itself never changes what BaseParams
observes. -/
theorem selectBaseParams_assign_before_notify (chain : String) (st : ModuleState) :
    SelectBaseParams chain st =
      SelectConfigNetwork chain (assignGlobalChainBaseParams chain st) ∧
    BaseParams (assignGlobalChainBaseParams chain st) =
      some (CreateBaseChainParams chain) ∧
    ∀ st2 : ModuleState, BaseParams (SelectConfigNetwork chain st2) = BaseParams st2 := by
  refine ⟨rfl, rfl, ?_⟩
  intro st2
  rfl

/-- C10: the factory is injective — distinct identifiers give distinct
parameter pairs; the custom port 18553 differs from all four reserved
ports, so no custom identifier collides with a reserved chain. -/
theorem createBaseChainParams_injective (a b : String) (h : a ≠ b) :
    CreateBaseChainParams a ≠ CreateBaseChainParams b := by
  intro heq
  apply h
  rw [← recoverId_create a, heq, recoverId_create b]

theorem createBaseChainParams_injective_witness :
    CreateBaseChainParams "testnet3" ≠ CreateBaseChainParams "test" :=
  createBaseChainParams_injective "testnet3" "test" (by decide)
